import Mathlib

/-!
Shallow embedding of the affordability/funding-decision engine of the
fiscal-fortress budgeting server (src/server/routes.ts): the
safe-to-spend affordability check (POST /api/safe-to-spend-check), the
payday funding-plan totals (GET /api/payday-funding-plan) and the
urgent-action ranker (GET /api/urgent-actions), together with proofs of
the specified properties.

Modelling conventions: monetary values are rationals (the specification
mandates exact decimal arithmetic); decimal strings parsed with
parseFloat become the rational they denote; JavaScript
undefined/nullable values become Option; the warning and recommendation
strings built by the handler are modelled as inductive messages carrying
the same numeric/textual payloads that the code interpolates into the
strings.
-/

/-- A virtual-account row as read by the decision engine: its type tag
("spending", "bills", "savings") and its balance (stored as a decimal
string in the database and parsed with parseFloat by the handler). -/
structure Account where
  type : String
  balance : ℚ
deriving DecidableEq

/-- An envelope row: fields read by the affordability check
(routes.ts lines 361-391). -/
structure Envelope where
  name : String
  budgetAmount : ℚ
  currentBalance : ℚ
  isStrict : Bool
deriving DecidableEq

/-- A debt row: fields read by the decision engine (minimumPayment and
dueDay; routes.ts lines 367, 444, 563-588). -/
structure Debt where
  id : Int
  name : String
  minimumPayment : ℚ
  dueDay : Int
deriving DecidableEq

/-- A bill row: fields read by the decision engine (routes.ts lines
364-365, 441-442, 522-561). mustHaveByDay is nullable. -/
structure Bill where
  id : Int
  name : String
  amount : ℚ
  dueDay : Int
  mustHaveByDay : Option Int
  isPaid : Bool
deriving DecidableEq

/-- A pay-schedule row: only the amount is read by the funding plan's
expectedIncome sum (routes.ts line 455). -/
structure PaySchedule where
  amount : ℚ
deriving DecidableEq

/-- The user-settings row (shared schema userSettings table). -/
structure UserSettings where
  debtAttackMode : String
  safeToSpendWarning : Bool
deriving DecidableEq

/-- The financial snapshot fetched by the affordability handler
(routes.ts lines 348-354). storage.getUserSettings may return
undefined, hence the Option. -/
structure Snapshot where
  accounts : List Account
  envelopes : List Envelope
  debts : List Debt
  bills : List Bill
  settings : Option UserSettings
deriving DecidableEq

/-- The ternary affordability verdict ("yes" | "warning" | "no"). -/
inductive Status where
  | yes
  | warning
  | no
deriving DecidableEq

/-- The warning messages pushed by the affordability handler, with the
data each template string interpolates (routes.ts lines 377, 380, 391,
397). -/
inductive Warning where
  | exceedsSpending (available : ℚ)
  | lowBalance (remaining : ℚ)
  | shortEnvelopes (names : List String)
  | billsAccountNeeded
deriving DecidableEq

/-- The recommendation strings built at routes.ts lines 400-407: the
"yes" text embeds the remaining balance, the "warning"/"no" texts embed
the first warning when one exists and otherwise fall back to a generic
text. -/
inductive Recommendation where
  | affordable (remaining : ℚ)
  | caution (w : Warning)
  | cautionGeneric
  | notRecommended (w : Warning)
  | notRecommendedGeneric
deriving DecidableEq

/-- The JSON body returned by POST /api/safe-to-spend-check
(routes.ts lines 409-420). -/
structure CheckResult where
  canBuy : Bool
  status : Status
  safeToSpend : ℚ
  purchaseAmount : ℚ
  remainingAfter : ℚ
  warnings : List Warning
  recommendation : Recommendation
  strictObligations : ℚ
  upcomingBills : ℚ
  debtPayments : ℚ
deriving DecidableEq

/-- Balance of the first account with the given type tag, defaulting to
0 when no such account exists: mirrors
parseFloat(accounts.find(a => a.type === t)?.balance || "0")
(routes.ts lines 356-359). -/
def accountBalance (accounts : List Account) (t : String) : ℚ :=
  match accounts.find? (fun a => a.type == t) with
  | some a => a.balance
  | none => 0

/-- spendingBalance of routes.ts line 358. -/
def spendingBalanceOf (accounts : List Account) : ℚ :=
  accountBalance accounts "spending"

/-- billsBalance of routes.ts line 359. -/
def billsBalanceOf (accounts : List Account) : ℚ :=
  accountBalance accounts "bills"

/-- strictTotal of routes.ts lines 361-362: sum of budgetAmount over
strict envelopes. -/
def strictTotalOf (envelopes : List Envelope) : ℚ :=
  ((envelopes.filter fun e => e.isStrict).map Envelope.budgetAmount).sum

/-- unpaidBillsTotal of routes.ts lines 364-365 (and billsTotal of lines
441-442): sum of amount over unpaid bills. -/
def unpaidBillsTotalOf (bills : List Bill) : ℚ :=
  ((bills.filter fun b => !b.isPaid).map Bill.amount).sum

/-- debtPayments of routes.ts line 367 (and debtPaymentsTotal of line
444): sum of minimumPayment over all debts. -/
def debtPaymentsOf (debts : List Debt) : ℚ :=
  (debts.map Debt.minimumPayment).sum

/-- The value of settings?.safeToSpendWarning as a boolean: undefined
settings make the optional chain undefined, which is falsy in the
conjunction at routes.ts line 378. -/
def warningFlag : Option UserSettings → Bool
  | some s => s.safeToSpendWarning
  | none => false

/-- affectedEnvelopes of routes.ts lines 383-387: non-strict envelopes
whose positive current balance is below the purchase amount. -/
def affectedEnvelopesOf (envelopes : List Envelope) (purchaseAmount : ℚ) : List Envelope :=
  (envelopes.filter fun e => !e.isStrict).filter fun e =>
    decide (purchaseAmount > e.currentBalance) && decide (e.currentBalance > 0)

/-- The affordability evaluator: a direct translation of the body of
POST /api/safe-to-spend-check (routes.ts lines 356-420). The sequential
mutation of the status/warnings variables is threaded through the pairs
sw1, sw2, sw3, one per mutation site. -/
def safeToSpendCheck (snap : Snapshot) (purchaseAmount : ℚ) : CheckResult :=
  let spendingBalance := spendingBalanceOf snap.accounts
  let billsBalance := billsBalanceOf snap.accounts
  let strictTotal := strictTotalOf snap.envelopes
  let unpaidBillsTotal := unpaidBillsTotalOf snap.bills
  let debtPayments := debtPaymentsOf snap.debts
  let newBalance := spendingBalance - purchaseAmount
  let sw1 : Status × List Warning :=
    if purchaseAmount > spendingBalance then
      (Status.no, [Warning.exceedsSpending spendingBalance])
    else if newBalance < 100 ∧ warningFlag snap.settings = true then
      (Status.warning, [Warning.lowBalance newBalance])
    else
      (Status.yes, [])
  let affected := affectedEnvelopesOf snap.envelopes purchaseAmount
  let sw2 : Status × List Warning :=
    if affected.length > 0 ∧ sw1.1 ≠ Status.no then
      (Status.warning, sw1.2 ++ [Warning.shortEnvelopes (affected.map Envelope.name)])
    else
      sw1
  let sw3 : Status × List Warning :=
    if (billsBalance < unpaidBillsTotal ∧ purchaseAmount > newBalance) ∧
        purchaseAmount > spendingBalance * (1 / 2) then
      ((if sw2.1 = Status.yes then Status.warning else sw2.1),
        sw2.2 ++ [Warning.billsAccountNeeded])
    else
      sw2
  let recommendation : Recommendation :=
    match sw3.1, sw3.2 with
    | Status.yes, _ => Recommendation.affordable newBalance
    | Status.warning, w :: _ => Recommendation.caution w
    | Status.warning, [] => Recommendation.cautionGeneric
    | Status.no, w :: _ => Recommendation.notRecommended w
    | Status.no, [] => Recommendation.notRecommendedGeneric
  { canBuy := decide (sw3.1 ≠ Status.no)
    status := sw3.1
    safeToSpend := spendingBalance
    purchaseAmount := purchaseAmount
    remainingAfter := newBalance
    warnings := sw3.2
    recommendation := recommendation
    strictObligations := strictTotal
    upcomingBills := unpaidBillsTotal
    debtPayments := debtPayments }

/-- The low-balance trigger of routes.ts line 378: remaining balance
below the fixed 100 threshold while the safe-to-spend warning setting is
on. -/
def lowCond (snap : Snapshot) (p : ℚ) : Prop :=
  spendingBalanceOf snap.accounts - p < 100 ∧ warningFlag snap.settings = true

/-- The envelope trigger of routes.ts line 389: at least one affected
non-strict envelope. -/
def envCond (snap : Snapshot) (p : ℚ) : Prop :=
  (affectedEnvelopesOf snap.envelopes p).length > 0

/-- The bills-account trigger of routes.ts lines 394-395:
billsAccountWouldBeShort together with the purchase exceeding half the
spending balance. -/
def billsCond (snap : Snapshot) (p : ℚ) : Prop :=
  (billsBalanceOf snap.accounts < unpaidBillsTotalOf snap.bills ∧
    p > spendingBalanceOf snap.accounts - p) ∧
  p > spendingBalanceOf snap.accounts * (1 / 2)

instance (snap : Snapshot) (p : ℚ) : Decidable (lowCond snap p) := by
  unfold lowCond
  infer_instance

instance (snap : Snapshot) (p : ℚ) : Decidable (envCond snap p) := by
  unfold envCond
  infer_instance

instance (snap : Snapshot) (p : ℚ) : Decidable (billsCond snap p) := by
  unfold billsCond
  infer_instance

/-- Rank of a verdict, with better verdicts ranked higher
(yes > warning > no). -/
def statusRank : Status → Nat
  | Status.no => 0
  | Status.warning => 1
  | Status.yes => 2

/-- The monetary fields of the payday funding plan computed by
GET /api/payday-funding-plan (routes.ts lines 441-466). The per-item
isUrgent annotations and the nextPayday date of the response are not
modelled; no verified property refers to them. -/
structure FundingPlan where
  billsFunding : ℚ
  debtFunding : ℚ
  savingsFunding : ℚ
  taxesFunding : ℚ
  safeToSpend : ℚ
  totalObligations : ℚ
  expectedIncome : ℚ
deriving DecidableEq

/-- The payday funding-plan totals: a direct translation of routes.ts
lines 441-466. -/
def paydayFundingPlan (bills : List Bill) (debts : List Debt)
    (paySchedules : List PaySchedule) : FundingPlan :=
  let billsTotal := unpaidBillsTotalOf bills
  let debtPaymentsTotal := debtPaymentsOf debts
  let savingsTarget : ℚ := 200
  let taxReserve : ℚ := 0
  let totalObligations := billsTotal + debtPaymentsTotal + savingsTarget + taxReserve
  let expectedIncome := (paySchedules.map PaySchedule.amount).sum
  let safeToSpend := max 0 (expectedIncome - totalObligations)
  { billsFunding := billsTotal
    debtFunding := debtPaymentsTotal
    savingsFunding := savingsTarget
    taxesFunding := taxReserve
    safeToSpend := safeToSpend
    totalObligations := totalObligations
    expectedIncome := expectedIncome }

/-- The urgency tier of an action ("today" | "urgent" | "warning"). -/
inductive Urgency where
  | today
  | urgent
  | warning
deriving DecidableEq

/-- The sort key used by the comparator at routes.ts lines 590-593:
today maps to 0, urgent to 1, warning to 2. -/
def Urgency.rank : Urgency → Nat
  | Urgency.today => 0
  | Urgency.urgent => 1
  | Urgency.warning => 2

/-- An urgent-action item (routes.ts lines 505-513); the templated
title/description strings are not modelled, no verified property refers
to them. -/
structure UrgentAction where
  type : String
  urgency : Urgency
  amount : ℚ
  daysUntil : Int
  id : Int
deriving DecidableEq

/-- calcDaysUntil of routes.ts lines 515-520. -/
def calcDaysUntil (currentDay daysInMonth dueDay : Int) : Int :=
  if dueDay ≥ currentDay then dueDay - currentDay
  else daysInMonth - currentDay + dueDay

/-- The expression bill.mustHaveByDay || dueDay of routes.ts line 524:
both null and 0 are falsy in JavaScript, so both fall back to the due
day. -/
def mustHaveOrDue (b : Bill) : Int :=
  match b.mustHaveByDay with
  | some m => if m = 0 then b.dueDay else m
  | none => b.dueDay

/-- Classification of one unpaid bill (routes.ts lines 522-561):
first-match over today / urgent / warning, otherwise no action item. -/
def billAction (currentDay daysInMonth : Int) (b : Bill) : Option UrgentAction :=
  let daysUntil := calcDaysUntil currentDay daysInMonth b.dueDay
  let mustHaveDaysUntil := calcDaysUntil currentDay daysInMonth (mustHaveOrDue b)
  if daysUntil = 0 ∨ mustHaveDaysUntil = 0 then
    some { type := "bill", urgency := Urgency.today, amount := b.amount,
           daysUntil := 0, id := b.id }
  else if daysUntil ≤ 3 ∨ mustHaveDaysUntil ≤ 2 then
    some { type := "bill", urgency := Urgency.urgent, amount := b.amount,
           daysUntil := daysUntil, id := b.id }
  else if daysUntil ≤ 7 then
    some { type := "bill", urgency := Urgency.warning, amount := b.amount,
           daysUntil := daysUntil, id := b.id }
  else
    none

/-- Classification of one debt (routes.ts lines 563-588): today or
urgent, never the warning tier. -/
def debtAction (currentDay daysInMonth : Int) (d : Debt) : Option UrgentAction :=
  let daysUntil := calcDaysUntil currentDay daysInMonth d.dueDay
  if daysUntil = 0 then
    some { type := "debt", urgency := Urgency.today, amount := d.minimumPayment,
           daysUntil := 0, id := d.id }
  else if daysUntil ≤ 3 then
    some { type := "debt", urgency := Urgency.urgent, amount := d.minimumPayment,
           daysUntil := daysUntil, id := d.id }
  else
    none

/-- The ordering induced by the comparator at routes.ts lines 590-593:
ascending urgency rank, ties broken by ascending daysUntil. -/
def actionLE (a b : UrgentAction) : Prop :=
  Urgency.rank a.urgency < Urgency.rank b.urgency ∨
    (Urgency.rank a.urgency = Urgency.rank b.urgency ∧ a.daysUntil ≤ b.daysUntil)

instance : DecidableRel actionLE := fun a b => by
  unfold actionLE
  infer_instance

instance : IsTotal UrgentAction actionLE :=
  ⟨fun a b => by unfold actionLE; omega⟩

instance : IsTrans UrgentAction actionLE :=
  ⟨fun a b c => by unfold actionLE; omega⟩

/-- The urgent-actions pipeline of GET /api/urgent-actions (routes.ts
lines 505-595): unpaid bills are classified first, then debts, and the
result is sorted with the comparator of lines 590-593. JavaScript's
stable Array.prototype.sort is modelled as a stable insertion sort over
the comparator's induced ordering. -/
def urgentActions (currentDay daysInMonth : Int) (bills : List Bill)
    (debts : List Debt) : List UrgentAction :=
  let actions :=
    ((bills.filter fun b => !b.isPaid).filterMap (billAction currentDay daysInMonth)) ++
      debts.filterMap (debtAction currentDay daysInMonth)
  List.insertionSort actionLE actions

/-- Snapshot of spec scenario 1/2: a spending account holding 850.00,
warnings enabled, nothing else. -/
def snapBase : Snapshot :=
  ⟨[⟨"spending", 850⟩], [], [], [], some ⟨"avalanche", true⟩⟩

/-- Snapshot exercising the bills-account trigger: spending 1000.00, a
bills account at 0.00 and one unpaid 100.00 bill. -/
def snapBills : Snapshot :=
  ⟨[⟨"spending", 1000⟩, ⟨"bills", 0⟩], [], [], [⟨1, "Rent", 100, 1, none, false⟩],
    some ⟨"avalanche", true⟩⟩

/-- Snapshot with no stored settings record: a spending account holding
850.00 and storage.getUserSettings returning undefined. -/
def snapNoSettings : Snapshot :=
  ⟨[⟨"spending", 850⟩], [], [], [], none⟩

/-- A bill due on day 1 of the month (spec scenario 4). -/
def scenarioBill : Bill := ⟨1, "Rent", 50, 1, none, false⟩

/-- A bill due on day 5 of the month, used with currentDay 5. -/
def todayBill : Bill := ⟨2, "Electric", 120, 5, none, false⟩

/-- The final verdict is "no" exactly when the purchase exceeds the
spending balance: the only assignment of "no" is the first branch at
routes.ts line 376, and the later steps never overwrite a "no". -/
lemma status_no_iff (snap : Snapshot) (p : ℚ) :
    (safeToSpendCheck snap p).status = Status.no ↔ spendingBalanceOf snap.accounts < p := by
  simp only [safeToSpendCheck]
  split_ifs <;> simp_all

/-- The final verdict is "yes" exactly when the purchase fits the
spending balance and none of the three warning triggers fires. -/
lemma status_yes_iff (snap : Snapshot) (p : ℚ) :
    (safeToSpendCheck snap p).status = Status.yes ↔
      ¬ spendingBalanceOf snap.accounts < p ∧
        ¬ lowCond snap p ∧ ¬ envCond snap p ∧ ¬ billsCond snap p := by
  simp only [safeToSpendCheck, lowCond, envCond, billsCond]
  split_ifs <;> simp_all

/-- The final verdict is "warning" exactly when the purchase fits the
spending balance and at least one of the three warning triggers fires. -/
lemma status_warning_iff (snap : Snapshot) (p : ℚ) :
    (safeToSpendCheck snap p).status = Status.warning ↔
      ¬ spendingBalanceOf snap.accounts < p ∧
        (lowCond snap p ∨ envCond snap p ∨ billsCond snap p) := by
  simp only [safeToSpendCheck, lowCond, envCond, billsCond]
  split_ifs <;> simp_all

/-- The low-balance trigger is monotone in the purchase amount: a larger
purchase leaves less remaining. -/
lemma lowCond_mono (snap : Snapshot) {a b : ℚ} (hab : a ≤ b) (h : lowCond snap a) :
    lowCond snap b := by
  unfold lowCond at h ⊢
  exact ⟨by linarith [h.1], h.2⟩

/-- The affected-envelope trigger is monotone in the purchase amount: an
envelope short of a smaller purchase is short of a larger one. -/
lemma envCond_mono (snap : Snapshot) {a b : ℚ} (hab : a ≤ b) (h : envCond snap a) :
    envCond snap b := by
  unfold envCond affectedEnvelopesOf at h ⊢
  rw [gt_iff_lt, List.length_pos_iff_ne_nil] at h ⊢
  obtain ⟨e, es, hcons⟩ := List.exists_cons_of_ne_nil h
  have he := hcons ▸ List.mem_cons_self e es
  rw [List.mem_filter] at he
  obtain ⟨h1, h2⟩ := he
  simp only [Bool.and_eq_true, decide_eq_true_eq, gt_iff_lt] at h2
  exact List.ne_nil_of_mem (List.mem_filter.mpr ⟨h1, by
    simp only [Bool.and_eq_true, decide_eq_true_eq, gt_iff_lt]
    exact ⟨lt_of_lt_of_le h2.1 hab, h2.2⟩⟩)

/-- The bills-account trigger is monotone in the purchase amount. -/
lemma billsCond_mono (snap : Snapshot) {a b : ℚ} (hab : a ≤ b) (h : billsCond snap a) :
    billsCond snap b := by
  unfold billsCond at h ⊢
  obtain ⟨⟨h1, h2⟩, h3⟩ := h
  exact ⟨⟨h1, by linarith⟩, by linarith⟩

/-- Claim C1: for every snapshot and every purchase amount strictly
greater than the spending-account balance, the affordability evaluator
returns status "no" with canBuy false, and the warnings list records the
exceeds-spending warning carrying the available spending amount. -/
theorem purchase_exceeding_balance_rejected (snap : Snapshot) (p : ℚ)
    (h : spendingBalanceOf snap.accounts < p) :
    (safeToSpendCheck snap p).status = Status.no ∧
      (safeToSpendCheck snap p).canBuy = false ∧
      Warning.exceedsSpending (spendingBalanceOf snap.accounts) ∈
        (safeToSpendCheck snap p).warnings := by
  simp only [safeToSpendCheck]
  split_ifs <;> simp_all

/-- Witness for C1 at spec scenario 2: spending balance 850.00 and
purchase amount 900.00. -/
theorem purchase_exceeding_balance_rejected_witness :
    (safeToSpendCheck snapBase 900).status = Status.no ∧
      (safeToSpendCheck snapBase 900).canBuy = false ∧
      Warning.exceedsSpending (spendingBalanceOf snapBase.accounts) ∈
        (safeToSpendCheck snapBase 900).warnings :=
  purchase_exceeding_balance_rejected snapBase 900 (by decide)


/-- Counterexample to claim C2: with spending balance 1000.00, a bills
account at 0.00 and one unpaid 100.00 bill, the 600.00 purchase
satisfies every hypothesis of the claim (it fits the balance, leaves
400.00 which is at least 100, and no envelope is affected), yet the
bills-account step of routes.ts lines 394-398 downgrades the verdict to
"warning" instead of "yes". -/
theorem yes_under_claimed_conditions_fails :
    (600 : ℚ) ≤ spendingBalanceOf snapBills.accounts ∧
      (100 : ℚ) ≤ spendingBalanceOf snapBills.accounts - 600 ∧
      affectedEnvelopesOf snapBills.envelopes 600 = [] ∧
      (safeToSpendCheck snapBills 600).status ≠ Status.yes := by
  norm_num +decide [safeToSpendCheck, snapBills, spendingBalanceOf, billsBalanceOf,
    accountBalance, strictTotalOf, unpaidBillsTotalOf, debtPaymentsOf, warningFlag,
    affectedEnvelopesOf]

/-- Claim C2 as amended: under the claim's hypotheses and the additional
hypothesis that the bills-account trigger of routes.ts lines 394-395
does not fire, the verdict is "yes". -/
theorem yes_when_no_trigger_fires (snap : Snapshot) (p : ℚ)
    (h1 : p ≤ spendingBalanceOf snap.accounts)
    (h2 : (100 : ℚ) ≤ spendingBalanceOf snap.accounts - p)
    (h3 : affectedEnvelopesOf snap.envelopes p = [])
    (h4 : ¬ billsCond snap p) :
    (safeToSpendCheck snap p).status = Status.yes := by
  refine (status_yes_iff snap p).mpr ⟨not_lt.mpr h1, ?_, ?_, h4⟩
  · unfold lowCond
    rintro ⟨hlow, -⟩
    linarith
  · unfold envCond
    rw [h3]
    simp

/-- Witness for the amended C2 at spec scenario 1: spending balance
850.00 and purchase amount 50.00. -/
theorem yes_when_no_trigger_fires_witness :
    (safeToSpendCheck snapBase 50).status = Status.yes :=
  yes_when_no_trigger_fires snapBase 50
    (by norm_num [spendingBalanceOf, accountBalance, snapBase])
    (by norm_num [spendingBalanceOf, accountBalance, snapBase])
    (by norm_num [affectedEnvelopesOf, snapBase])
    (by norm_num +decide [billsCond, spendingBalanceOf, billsBalanceOf, accountBalance,
      unpaidBillsTotalOf, snapBase])

/-- Claim C3 evaluated at the failing input: the handler performs no
validation on the purchase amount (routes.ts lines 346, 369), so the
non-positive amount -50.00 against a spending balance of 850.00 flows
through the whole computation and yields a full affordability result
with status "yes", canBuy true and the silently computed surplus of
900.00 as remainingAfter, instead of the validation error the
specification requires. -/
theorem non_positive_amount_not_validated :
    (safeToSpendCheck snapBase (-50)).status = Status.yes ∧
      (safeToSpendCheck snapBase (-50)).canBuy = true ∧
      (safeToSpendCheck snapBase (-50)).remainingAfter = 900 ∧
      (safeToSpendCheck snapBase (-50)).warnings = [] := by
  norm_num +decide [safeToSpendCheck, snapBase, spendingBalanceOf, billsBalanceOf,
    accountBalance, strictTotalOf, unpaidBillsTotalOf, debtPaymentsOf, warningFlag,
    affectedEnvelopesOf]

/-- Counterexample to claim C4: with no stored settings record, a
spending balance of 850.00 and a purchase of 800.00 (remainingAfter
50.00, below the 100.00 threshold), the evaluator returns "yes" with no
warnings, because settings?.safeToSpendWarning is undefined and hence
falsy at routes.ts line 378 -- the paragraph-4.1 default is applied only
by the settings-read endpoint (routes.ts lines 318-330), not by the
affordability snapshot. -/
theorem missing_settings_default_fails :
    snapNoSettings.settings = none ∧
      (800 : ℚ) ≤ spendingBalanceOf snapNoSettings.accounts ∧
      spendingBalanceOf snapNoSettings.accounts - 800 < 100 ∧
      (safeToSpendCheck snapNoSettings 800).status = Status.yes ∧
      (safeToSpendCheck snapNoSettings 800).warnings = [] := by
  norm_num +decide [safeToSpendCheck, snapNoSettings, spendingBalanceOf, billsBalanceOf,
    accountBalance, strictTotalOf, unpaidBillsTotalOf, debtPaymentsOf, warningFlag,
    affectedEnvelopesOf]

/-- Claim C4 as amended: when the user has no stored settings record the
affordability evaluator treats the safe-to-spend warning as disabled
rather than applying the paragraph-4.1 default. A purchase within the
spending balance whose remaining amount is below 100.00 yields verdict
"yes" (provided neither of the other two warning triggers fires), and
the low-balance warning can never be recorded. -/
theorem missing_settings_disable_low_balance_warning (snap : Snapshot) (p : ℚ)
    (hs : snap.settings = none)
    (h1 : p ≤ spendingBalanceOf snap.accounts)
    (_h2 : spendingBalanceOf snap.accounts - p < 100)
    (h3 : affectedEnvelopesOf snap.envelopes p = [])
    (h4 : ¬ billsCond snap p) :
    (safeToSpendCheck snap p).status = Status.yes ∧
      ∀ q : ℚ, Warning.lowBalance q ∉ (safeToSpendCheck snap p).warnings := by
  constructor
  · refine (status_yes_iff snap p).mpr ⟨not_lt.mpr h1, ?_, ?_, h4⟩
    · unfold lowCond
      rw [hs]
      rintro ⟨-, hflag⟩
      simp [warningFlag] at hflag
    · unfold envCond
      rw [h3]
      simp
  · intro q
    simp only [safeToSpendCheck, hs, h3, affectedEnvelopesOf] at *
    split_ifs <;> simp_all [warningFlag]

/-- Witness for the amended C4: the snapshot with no settings record,
spending balance 850.00 and purchase amount 800.00. -/
theorem missing_settings_disable_low_balance_warning_witness :
    (safeToSpendCheck snapNoSettings 800).status = Status.yes :=
  (missing_settings_disable_low_balance_warning snapNoSettings 800 rfl
    (by norm_num [spendingBalanceOf, accountBalance, snapNoSettings])
    (by norm_num [spendingBalanceOf, accountBalance, snapNoSettings])
    (by norm_num [affectedEnvelopesOf, snapNoSettings])
    (by norm_num +decide [billsCond, spendingBalanceOf, billsBalanceOf, accountBalance,
      unpaidBillsTotalOf, snapNoSettings])).1

/-- Claim C5: for every snapshot the payday funding plan satisfies
safeToSpend = max(0, expectedIncome - totalObligations) exactly, with
totalObligations the sum of unpaid bill amounts, all debts' minimum
payments, the fixed 200.00 savings target and the inert 0 tax reserve;
consequently safeToSpend is never negative. -/
theorem funding_plan_safe_to_spend_formula (bills : List Bill) (debts : List Debt)
    (paySchedules : List PaySchedule) :
    (paydayFundingPlan bills debts paySchedules).safeToSpend =
        max 0 ((paydayFundingPlan bills debts paySchedules).expectedIncome -
          (paydayFundingPlan bills debts paySchedules).totalObligations) ∧
      (paydayFundingPlan bills debts paySchedules).totalObligations =
        unpaidBillsTotalOf bills + debtPaymentsOf debts + 200 + 0 ∧
      (paydayFundingPlan bills debts paySchedules).expectedIncome =
        (paySchedules.map PaySchedule.amount).sum ∧
      0 ≤ (paydayFundingPlan bills debts paySchedules).safeToSpend := by
  refine ⟨rfl, rfl, rfl, ?_⟩
  exact le_max_left 0 _

/-- Claim C6: for every input the urgent-actions list is sorted
ascending by urgency rank (today = 0, urgent = 1, warning = 2) with ties
broken by ascending daysUntil. -/
theorem urgent_actions_sorted (currentDay daysInMonth : Int) (bills : List Bill)
    (debts : List Debt) :
    List.Sorted actionLE (urgentActions currentDay daysInMonth bills debts) := by
  unfold urgentActions
  exact List.sorted_insertionSort actionLE _

/-- Claim C7: daysUntil is dueDay - currentDay when the due day has not
passed and wraps by daysInMonth - currentDay + dueDay otherwise;
classification is first-match (zero days gives "today", within 3 days or
a must-have window within 2 days gives "urgent", within 7 days gives
"warning" for bills only, debts have no "warning" tier, and later due
dates produce no action item); and concretely a bill due on day 1 seen
on day 29 of a 30-day month has daysUntil 2 and urgency "urgent". -/
theorem urgency_classification (currentDay daysInMonth : Int) (b : Bill) (d : Debt) :
    calcDaysUntil currentDay daysInMonth b.dueDay =
        (if b.dueDay ≥ currentDay then b.dueDay - currentDay
         else daysInMonth - currentDay + b.dueDay) ∧
      (billAction currentDay daysInMonth b).map UrgentAction.urgency =
        (if calcDaysUntil currentDay daysInMonth b.dueDay = 0 ∨
            calcDaysUntil currentDay daysInMonth (mustHaveOrDue b) = 0 then
          some Urgency.today
         else if calcDaysUntil currentDay daysInMonth b.dueDay ≤ 3 ∨
            calcDaysUntil currentDay daysInMonth (mustHaveOrDue b) ≤ 2 then
          some Urgency.urgent
         else if calcDaysUntil currentDay daysInMonth b.dueDay ≤ 7 then
          some Urgency.warning
         else none) ∧
      (debtAction currentDay daysInMonth d).map UrgentAction.urgency =
        (if calcDaysUntil currentDay daysInMonth d.dueDay = 0 then some Urgency.today
         else if calcDaysUntil currentDay daysInMonth d.dueDay ≤ 3 then some Urgency.urgent
         else none) ∧
      (debtAction currentDay daysInMonth d).map UrgentAction.urgency ≠
        some Urgency.warning ∧
      calcDaysUntil 29 30 1 = 2 ∧
      (billAction 29 30 scenarioBill).map UrgentAction.urgency = some Urgency.urgent := by
  refine ⟨rfl, ?_, ?_, ?_, by decide, by decide⟩
  · simp only [billAction]
    split_ifs <;> simp
  · simp only [debtAction]
    split_ifs <;> simp
  · simp only [debtAction]
    split_ifs <;> simp

/-- Claim C8: with the snapshot fixed, increasing the purchase amount
never improves the verdict under the ordering yes > warning > no. -/
theorem verdict_antitone_in_amount (snap : Snapshot) (a b : ℚ) (hab : a ≤ b) :
    statusRank (safeToSpendCheck snap b).status ≤
      statusRank (safeToSpendCheck snap a).status := by
  cases hsa : (safeToSpendCheck snap a).status with
  | yes =>
      cases (safeToSpendCheck snap b).status <;> simp [statusRank]
  | warning =>
      have hw := (status_warning_iff snap a).mp hsa
      cases hsb : (safeToSpendCheck snap b).status with
      | yes =>
          exfalso
          have hy := (status_yes_iff snap b).mp hsb
          rcases hw.2 with h | h | h
          · exact hy.2.1 (lowCond_mono snap hab h)
          · exact hy.2.2.1 (envCond_mono snap hab h)
          · exact hy.2.2.2 (billsCond_mono snap hab h)
      | warning => simp [statusRank]
      | no => simp [statusRank]
  | no =>
      have hn := (status_no_iff snap a).mp hsa
      have hb : (safeToSpendCheck snap b).status = Status.no :=
        (status_no_iff snap b).mpr (lt_of_lt_of_le hn hab)
      simp [hb, statusRank]

/-- Witness for C8: on the 850.00-balance snapshot the verdict for
900.00 is no better than the verdict for 50.00. -/
theorem verdict_antitone_in_amount_witness :
    statusRank (safeToSpendCheck snapBase 900).status ≤
      statusRank (safeToSpendCheck snapBase 50).status :=
  verdict_antitone_in_amount snapBase 50 900 (by norm_num)

/-- Claim C9: whenever the final verdict is "warning" or "no" the
warnings list is non-empty, and the recommendation embeds the first
recorded warning (so the generic fallback texts of routes.ts lines
404 and 406 are unreachable). -/
theorem warnings_nonempty_when_not_yes (snap : Snapshot) (p : ℚ)
    (h : (safeToSpendCheck snap p).status ≠ Status.yes) :
    (safeToSpendCheck snap p).warnings ≠ [] ∧
      ((safeToSpendCheck snap p).status = Status.warning →
        ((safeToSpendCheck snap p).warnings.head?).map Recommendation.caution =
          some (safeToSpendCheck snap p).recommendation) ∧
      ((safeToSpendCheck snap p).status = Status.no →
        ((safeToSpendCheck snap p).warnings.head?).map Recommendation.notRecommended =
          some (safeToSpendCheck snap p).recommendation) := by
  simp only [safeToSpendCheck] at h ⊢
  split_ifs at h ⊢ <;> simp_all

/-- Witness for C9: on the 850.00-balance snapshot the rejected 900.00
purchase has a non-empty warnings list. -/
theorem warnings_nonempty_when_not_yes_witness :
    (safeToSpendCheck snapBase 900).warnings ≠ [] :=
  (warnings_nonempty_when_not_yes snapBase 900 (by decide)).1

/-- calcDaysUntil is non-negative whenever the current day is within the
month and the due day is at least 1. -/
lemma calcDaysUntil_nonneg (currentDay daysInMonth dueDay : Int)
    (hcm : currentDay ≤ daysInMonth) (hd : 1 ≤ dueDay) :
    0 ≤ calcDaysUntil currentDay daysInMonth dueDay := by
  unfold calcDaysUntil
  split_ifs with h <;> omega

/-- Every action emitted for a bill has non-negative daysUntil and, when
classified "today", daysUntil exactly 0. -/
lemma billAction_daysUntil (currentDay daysInMonth : Int) (b : Bill) (a : UrgentAction)
    (hcm : currentDay ≤ daysInMonth) (hd : 1 ≤ b.dueDay)
    (ha : billAction currentDay daysInMonth b = some a) :
    0 ≤ a.daysUntil ∧ (a.urgency = Urgency.today → a.daysUntil = 0) := by
  have hnn := calcDaysUntil_nonneg currentDay daysInMonth b.dueDay hcm hd
  simp only [billAction] at ha
  split_ifs at ha <;> simp_all <;> cases ha <;> simp_all

/-- Every action emitted for a debt has non-negative daysUntil and, when
classified "today", daysUntil exactly 0. -/
lemma debtAction_daysUntil (currentDay daysInMonth : Int) (d : Debt) (a : UrgentAction)
    (hcm : currentDay ≤ daysInMonth) (hd : 1 ≤ d.dueDay)
    (ha : debtAction currentDay daysInMonth d = some a) :
    0 ≤ a.daysUntil ∧ (a.urgency = Urgency.today → a.daysUntil = 0) := by
  have hnn := calcDaysUntil_nonneg currentDay daysInMonth d.dueDay hcm hd
  simp only [debtAction] at ha
  split_ifs at ha <;> simp_all <;> cases ha <;> simp_all

/-- Claim C10: when the current day lies in 1..daysInMonth and every due
day lies in 1..31, every emitted urgent action has daysUntil at least 0,
and every action with urgency "today" has daysUntil exactly 0. -/
theorem urgent_actions_days_nonneg (currentDay daysInMonth : Int)
    (bills : List Bill) (debts : List Debt)
    (_hc1 : 1 ≤ currentDay) (hc2 : currentDay ≤ daysInMonth)
    (hb : bills.Forall fun b => 1 ≤ b.dueDay ∧ b.dueDay ≤ 31)
    (hd : debts.Forall fun d => 1 ≤ d.dueDay ∧ d.dueDay ≤ 31) :
    (urgentActions currentDay daysInMonth bills debts).Forall fun a =>
      0 ≤ a.daysUntil ∧ (a.urgency = Urgency.today → a.daysUntil = 0) := by
  rw [List.forall_iff_forall_mem] at hb hd ⊢
  intro a hmem
  unfold urgentActions at hmem
  rw [(List.perm_insertionSort actionLE _).mem_iff, List.mem_append] at hmem
  rcases hmem with hmem | hmem
  · rw [List.mem_filterMap] at hmem
    obtain ⟨b, hbmem, hsome⟩ := hmem
    have hbr := hb b (List.mem_of_mem_filter hbmem)
    exact billAction_daysUntil currentDay daysInMonth b a hc2 hbr.1 hsome
  · rw [List.mem_filterMap] at hmem
    obtain ⟨d, hdmem, hsome⟩ := hmem
    have hdr := hd d hdmem
    exact debtAction_daysUntil currentDay daysInMonth d a hc2 hdr.1 hsome

/-- Witness for C10: a single bill due on day 5 seen on day 5 of a
30-day month yields one action, due today with zero days until due. -/
theorem urgent_actions_days_nonneg_witness :
    (urgentActions 5 30 [todayBill] []).Forall fun a =>
      0 ≤ a.daysUntil ∧ (a.urgency = Urgency.today → a.daysUntil = 0) :=
  urgent_actions_days_nonneg 5 30 [todayBill] [] (by decide) (by decide)
    (by decide) (by decide)
